import Mathlib

/-!
Shallow embedding of the multi-tenant discount-coupon service
(`src/functions/coupons/helpers.ts`, `src/functions/coupons/handlers.ts`,
`src/functions/coupons/schemas.ts`, `src/types/coupon.ts`).

Money amounts and cart totals are JavaScript numbers; they are modelled as
rationals (`ℚ`).  Timestamps (ISO strings parsed with `new Date`) are
modelled as integers (`ℤ`, epoch milliseconds).  `Math.round` is JavaScript
round-half-up, which coincides with Mathlib's `round` on `ℚ`.
Optional document fields (`minPurchase`, `maxUses`), read in the source with
`!= null` / `!== null && !== undefined`, are modelled as `Option`.
The Firestore state visible to these handlers is a sites map plus the list
of coupon documents; document reads by id and by `(siteId, code)` query use
find-first, matching unique-id Firestore documents and `.limit(1)` queries.
-/

inductive DiscountType where
  | percentage
  | fixed
deriving DecidableEq, Repr

inductive ErrorCode where
  | INVALID_INPUT
  | SITE_NOT_FOUND
  | COUPON_NOT_FOUND
  | FORBIDDEN
  | DUPLICATE_CODE
  | COUPON_LIMIT_REACHED
  | COUPON_INACTIVE
  | COUPON_EXPIRED
  | COUPON_NOT_YET_VALID
  | COUPON_MAX_USES
  | MIN_PURCHASE_NOT_MET
  | INTERNAL_ERROR
deriving DecidableEq, Repr

structure CouponDocument where
  id : String
  siteId : String
  userId : String
  code : String
  discountType : DiscountType
  discountValue : ℚ
  minPurchase : Option ℚ
  maxUses : Option ℕ
  usedCount : ℕ
  validFrom : ℤ
  validUntil : ℤ
  isActive : Bool
  createdAt : ℤ
  updatedAt : ℤ
deriving DecidableEq, Repr

/-- Result envelope: the source's `FunctionResponse` populates exactly one of
`data` / `error`; errors carry an `ErrorCode`. -/
inductive FnResult (α : Type) where
  | ok (a : α)
  | err (e : ErrorCode)
deriving DecidableEq, Repr

/-- The store state: site lookup (siteId to owning userId, `sites` collection)
and the `coupons` collection. -/
structure Store where
  sites : String → Option String
  coupons : List CouponDocument

/-- `calculateDiscount` from `helpers.ts` (identical inline copy in the first
handler version): percentage uses `Math.round(cartTotal * (discountValue / 100))`,
fixed uses `Math.min(discountValue, cartTotal)`. -/
def calculateDiscount (discountType : DiscountType) (discountValue cartTotal : ℚ) : ℚ :=
  match discountType with
  | .percentage => ((round (cartTotal * (discountValue / 100)) : ℤ) : ℚ)
  | .fixed => min discountValue cartTotal

/-- `coupon.maxUses != null && coupon.usedCount >= coupon.maxUses`. -/
def maxUsesExhausted (coupon : CouponDocument) : Bool :=
  match coupon.maxUses with
  | some m => m ≤ coupon.usedCount
  | none => false

/-- `coupon.minPurchase != null && cartTotal < coupon.minPurchase`. -/
def belowMinPurchase (coupon : CouponDocument) (cartTotal : ℚ) : Bool :=
  match coupon.minPurchase with
  | some mp => cartTotal < mp
  | none => false

/-- `validateCouponEligibility` from `helpers.ts`; `now` (taken with
`new Date()` in the source) is passed explicitly.  Returns the error code of
the first failed check, or `none` when the coupon is eligible. -/
def validateCouponEligibility (coupon : CouponDocument) (cartTotal : ℚ) (now : ℤ) :
    Option ErrorCode :=
  if coupon.isActive = false then some .COUPON_INACTIVE
  else if now < coupon.validFrom then some .COUPON_NOT_YET_VALID
  else if coupon.validUntil < now then some .COUPON_EXPIRED
  else if maxUsesExhausted coupon = true then some .COUPON_MAX_USES
  else if belowMinPurchase coupon cartTotal = true then some .MIN_PURCHASE_NOT_MET
  else none

/-- Reference eligibility decision, written from the specification's words
(section 4.4): not active gives COUPON_INACTIVE; else now strictly before
validFrom gives COUPON_NOT_YET_VALID; else now strictly after validUntil
gives COUPON_EXPIRED (equal-to-validUntil passes); else maxUses set and
usedCount at least maxUses gives COUPON_MAX_USES; else minPurchase set and
cartTotal below minPurchase gives MIN_PURCHASE_NOT_MET; else eligible. -/
def checkEligibilitySpec (coupon : CouponDocument) (cartTotal : ℚ) (now : ℤ) :
    Option ErrorCode :=
  if ¬ coupon.isActive then some .COUPON_INACTIVE
  else if now < coupon.validFrom then some .COUPON_NOT_YET_VALID
  else if coupon.validUntil < now then some .COUPON_EXPIRED
  else if coupon.maxUses.any (fun m => coupon.usedCount ≥ m) then some .COUPON_MAX_USES
  else if coupon.minPurchase.any (fun mp => cartTotal < mp) then some .MIN_PURCHASE_NOT_MET
  else none

/-- `code.toUpperCase()`: uppercase normalization, written structurally
(character-wise `Char.toUpper` over the string's characters). -/
def upperCode (s : String) : String := String.mk (s.data.map Char.toUpper)

-- ── Requests and structural schemas (`schemas.ts`) ──────────────────────────

structure CreateCouponRequest where
  siteId : String
  code : String
  discountType : DiscountType
  discountValue : ℚ
  minPurchase : Option ℚ
  maxUses : Option ℕ
  validFrom : ℤ
  validUntil : ℤ
deriving DecidableEq, Repr

structure GetCouponsRequest where
  siteId : String
deriving DecidableEq, Repr

/-- Three-state optional of the update schema: key absent, key explicitly
`null` (clear the stored field), or key present with a value. -/
inductive UpdateField (α : Type) where
  | absent
  | null
  | given (a : α)
deriving DecidableEq, Repr

structure UpdateCouponRequest where
  siteId : String
  couponId : String
  code : Option String
  discountType : Option DiscountType
  discountValue : Option ℚ
  minPurchase : UpdateField ℚ
  maxUses : UpdateField ℕ
  validFrom : Option ℤ
  validUntil : Option ℤ
  isActive : Option Bool
deriving DecidableEq, Repr

structure DeleteCouponRequest where
  siteId : String
  couponId : String
deriving DecidableEq, Repr

structure ValidateCouponRequest where
  siteId : String
  code : String
  cartTotal : ℚ
deriving DecidableEq, Repr

structure ApplyCouponRequest where
  siteId : String
  couponId : String
  orderId : String
  cartTotal : ℚ
deriving DecidableEq, Repr

/-- `createCouponSchema`: nonempty strings, positive numbers (`maxUses`
integer, carried by the `ℕ` model), percentage at most 100, and
`validFrom` strictly before `validUntil`. -/
def createCouponSchemaOk (r : CreateCouponRequest) : Bool :=
  decide (1 ≤ r.siteId.length) && decide (1 ≤ r.code.length)
  && decide (0 < r.discountValue)
  && (match r.minPurchase with | some v => decide (0 < v) | none => true)
  && (match r.maxUses with | some m => decide (0 < m) | none => true)
  && (match r.discountType with
      | .percentage => decide (r.discountValue ≤ 100)
      | .fixed => true)
  && decide (r.validFrom < r.validUntil)

def getCouponsSchemaOk (r : GetCouponsRequest) : Bool :=
  decide (1 ≤ r.siteId.length)

/-- `updateCouponSchema`: identifiers required, business fields optional;
the cross-field refinements fire only when both halves are present in the
request. -/
def updateCouponSchemaOk (r : UpdateCouponRequest) : Bool :=
  decide (1 ≤ r.siteId.length) && decide (1 ≤ r.couponId.length)
  && (match r.code with | some s => decide (1 ≤ s.length) | none => true)
  && (match r.discountValue with | some v => decide (0 < v) | none => true)
  && (match r.minPurchase with | .given v => decide (0 < v) | _ => true)
  && (match r.maxUses with | .given m => decide (0 < m) | _ => true)
  && (match r.discountType, r.discountValue with
      | some .percentage, some v => decide (v ≤ 100)
      | _, _ => true)
  && (match r.validFrom, r.validUntil with
      | some f, some u => decide (f < u)
      | _, _ => true)

def deleteCouponSchemaOk (r : DeleteCouponRequest) : Bool :=
  decide (1 ≤ r.siteId.length) && decide (1 ≤ r.couponId.length)

def validateCouponSchemaOk (r : ValidateCouponRequest) : Bool :=
  decide (1 ≤ r.siteId.length) && decide (1 ≤ r.code.length)
  && decide (0 ≤ r.cartTotal)

def applyCouponSchemaOk (r : ApplyCouponRequest) : Bool :=
  decide (1 ≤ r.siteId.length) && decide (1 ≤ r.couponId.length)
  && decide (1 ≤ r.orderId.length) && decide (0 ≤ r.cartTotal)

-- ── Store access primitives ─────────────────────────────────────────────────

/-- Point read of a coupon document by id (`couponsCollection.doc(id).get()`). -/
def findCouponById (st : Store) (couponId : String) : Option CouponDocument :=
  st.coupons.find? (fun c => decide (c.id = couponId))

/-- `couponByCodeQuery`: indexed query on `(siteId, code)` with `.limit(1)`. -/
def findCouponByCode (st : Store) (siteId code : String) : Option CouponDocument :=
  st.coupons.find? (fun c => decide (c.siteId = siteId) && decide (c.code = code))

/-- Write to the document addressed by `couponId` (Firestore document ids are
unique, so the first find-match is the document). -/
def updateById (l : List CouponDocument) (couponId : String)
    (f : CouponDocument → CouponDocument) : List CouponDocument :=
  match l with
  | [] => []
  | c :: rest =>
    if c.id = couponId then f c :: rest else c :: updateById rest couponId f

/-- Delete of the document addressed by `couponId`. -/
def deleteById (l : List CouponDocument) (couponId : String) : List CouponDocument :=
  match l with
  | [] => []
  | c :: rest =>
    if c.id = couponId then rest else c :: deleteById rest couponId

/-- Verdict of the external plan-quota collaborator `canCreateCoupon`. -/
structure LimitCheck where
  allowed : Bool
  current : ℕ
  limit : ℕ
deriving DecidableEq, Repr

-- ── Result payloads (`types/coupon.ts`) ─────────────────────────────────────

structure ValidateCouponResult where
  valid : Bool
  couponId : String
  code : String
  discountType : DiscountType
  discountValue : ℚ
  discountAmount : ℚ
  finalTotal : ℚ
deriving DecidableEq, Repr

structure ApplyCouponResult where
  couponId : String
  orderId : String
  discountType : DiscountType
  discountValue : ℚ
  discountAmount : ℚ
  finalTotal : ℚ
  usedCount : ℕ
deriving DecidableEq, Repr

structure DeleteCouponResult where
  id : String
deriving DecidableEq, Repr

-- ── Helper-based handlers (second version in `handlers.ts`) ─────────────────
-- `now` (ISO timestamps taken with `new Date()`), the store-assigned fresh
-- document id of `add`, and the plan-limit verdict are explicit parameters.
-- `withErrorHandling` only catches thrown exceptions; in this embedding no
-- modelled path throws, so the wrapper is the identity on these bodies.

/-- `createCouponHandler`: schema, site existence, plan limit, per-site code
uniqueness (uppercase-normalized), then insert with `usedCount = 0`,
`isActive = true` and both timestamps set to now. -/
def createCouponHandler (st : Store) (now : ℤ) (newId : String) (lc : LimitCheck)
    (r : CreateCouponRequest) : FnResult CouponDocument × Store :=
  if createCouponSchemaOk r = false then (.err .INVALID_INPUT, st) else
  match st.sites r.siteId with
  | none => (.err .SITE_NOT_FOUND, st)
  | some userId =>
    if lc.allowed = false then (.err .COUPON_LIMIT_REACHED, st) else
    match findCouponByCode st r.siteId (upperCode r.code) with
    | some _ => (.err .DUPLICATE_CODE, st)
    | none =>
      let couponData : CouponDocument :=
        { id := newId, siteId := r.siteId, userId := userId,
          code := upperCode r.code, discountType := r.discountType,
          discountValue := r.discountValue, minPurchase := r.minPurchase,
          maxUses := r.maxUses, usedCount := 0, validFrom := r.validFrom,
          validUntil := r.validUntil, isActive := true,
          createdAt := now, updatedAt := now }
      (.ok couponData, { st with coupons := st.coupons ++ [couponData] })

/-- `getCouponsHandler`: schema, site existence, then the indexed query of all
coupons of the site.  Read-only. -/
def getCouponsHandler (st : Store) (r : GetCouponsRequest) :
    FnResult (List CouponDocument) × Store :=
  if getCouponsSchemaOk r = false then (.err .INVALID_INPUT, st) else
  match st.sites r.siteId with
  | none => (.err .SITE_NOT_FOUND, st)
  | some _ => (.ok (st.coupons.filter (fun c => decide (c.siteId = r.siteId))), st)

/-- Merge of a partial update into the stored document: keys absent from the
request keep the stored value, `null` clears `minPurchase`/`maxUses`, present
keys overwrite (`code` uppercased); `updatedAt` is refreshed.  This is
`buildCleanUpdates` (only defined keys are written, plus `updatedAt`)
followed by the Firestore field merge of `couponRef.update`. -/
def mergeCoupon (cur : CouponDocument) (r : UpdateCouponRequest) (now : ℤ) :
    CouponDocument :=
  { cur with
    code := match r.code with | some s => upperCode s | none => cur.code,
    discountType := r.discountType.getD cur.discountType,
    discountValue := r.discountValue.getD cur.discountValue,
    minPurchase :=
      match r.minPurchase with
      | .absent => cur.minPurchase
      | .null => none
      | .given v => some v,
    maxUses :=
      match r.maxUses with
      | .absent => cur.maxUses
      | .null => none
      | .given m => some m,
    validFrom := r.validFrom.getD cur.validFrom,
    validUntil := r.validUntil.getD cur.validUntil,
    isActive := r.isActive.getD cur.isActive,
    updatedAt := now }

/-- The duplicate-code test of `updateCouponHandler`: only when `code` is in
the request and its normalization differs from the stored code, query
`(siteId, normalizedCode)` for an existing match. -/
def updateDupCode (st : Store) (r : UpdateCouponRequest) (cur : CouponDocument) : Bool :=
  match r.code with
  | some s => decide (upperCode s ≠ cur.code) && (findCouponByCode st r.siteId (upperCode s)).isSome
  | none => false

/-- `updateCouponHandler`: schema, site, coupon existence, ownership,
duplicate code, merged-value cross-field validation (`validateUpdateFields`),
then persist the filtered update set and re-read. -/
def updateCouponHandler (st : Store) (now : ℤ) (r : UpdateCouponRequest) :
    FnResult CouponDocument × Store :=
  if updateCouponSchemaOk r = false then (.err .INVALID_INPUT, st) else
  match st.sites r.siteId with
  | none => (.err .SITE_NOT_FOUND, st)
  | some _ =>
    match findCouponById st r.couponId with
    | none => (.err .COUPON_NOT_FOUND, st)
    | some currentData =>
      if currentData.siteId ≠ r.siteId then (.err .FORBIDDEN, st) else
      if updateDupCode st r currentData = true then (.err .DUPLICATE_CODE, st) else
      if (r.discountType.getD currentData.discountType) = .percentage
          ∧ 100 < r.discountValue.getD currentData.discountValue then
        (.err .INVALID_INPUT, st)
      else if r.validUntil.getD currentData.validUntil
          ≤ r.validFrom.getD currentData.validFrom then
        (.err .INVALID_INPUT, st)
      else
        let st' : Store :=
          { st with coupons := updateById st.coupons r.couponId (fun c => mergeCoupon c r now) }
        match findCouponById st' r.couponId with
        | some updatedData => (.ok updatedData, st')
        | none => (.err .INTERNAL_ERROR, st')

/-- `deleteCouponHandler`: schema, site, coupon existence, ownership, then
delete the document. -/
def deleteCouponHandler (st : Store) (r : DeleteCouponRequest) :
    FnResult DeleteCouponResult × Store :=
  if deleteCouponSchemaOk r = false then (.err .INVALID_INPUT, st) else
  match st.sites r.siteId with
  | none => (.err .SITE_NOT_FOUND, st)
  | some _ =>
    match findCouponById st r.couponId with
    | none => (.err .COUPON_NOT_FOUND, st)
    | some couponData =>
      if couponData.siteId ≠ r.siteId then (.err .FORBIDDEN, st) else
      (.ok { id := r.couponId }, { st with coupons := deleteById st.coupons r.couponId })

/-- `validateCouponHandler`: schema, site, coupon lookup by normalized code,
eligibility via `validateCouponEligibility`, then the discount preview.
No write is performed in any branch. -/
def validateCouponHandler (st : Store) (now : ℤ) (r : ValidateCouponRequest) :
    FnResult ValidateCouponResult × Store :=
  if validateCouponSchemaOk r = false then (.err .INVALID_INPUT, st) else
  match st.sites r.siteId with
  | none => (.err .SITE_NOT_FOUND, st)
  | some _ =>
    match findCouponByCode st r.siteId (upperCode r.code) with
    | none => (.err .COUPON_NOT_FOUND, st)
    | some coupon =>
      match validateCouponEligibility coupon r.cartTotal now with
      | some e => (.err e, st)
      | none =>
        let discountAmount := calculateDiscount coupon.discountType coupon.discountValue r.cartTotal
        (.ok { valid := true, couponId := coupon.id, code := coupon.code,
               discountType := coupon.discountType, discountValue := coupon.discountValue,
               discountAmount := discountAmount,
               finalTotal := max (r.cartTotal - discountAmount) 0 }, st)

/-- `applyCouponHandler`: schema and site outside the transaction; inside the
transactional scope: coupon read by id, ownership, eligibility, discount, and
the increment `usedCount := usedCount + 1` with `updatedAt` refresh. -/
def applyCouponHandler (st : Store) (now : ℤ) (r : ApplyCouponRequest) :
    FnResult ApplyCouponResult × Store :=
  if applyCouponSchemaOk r = false then (.err .INVALID_INPUT, st) else
  match st.sites r.siteId with
  | none => (.err .SITE_NOT_FOUND, st)
  | some _ =>
    match findCouponById st r.couponId with
    | none => (.err .COUPON_NOT_FOUND, st)
    | some coupon =>
      if coupon.siteId ≠ r.siteId then (.err .FORBIDDEN, st) else
      match validateCouponEligibility coupon r.cartTotal now with
      | some e => (.err e, st)
      | none =>
        let discountAmount := calculateDiscount coupon.discountType coupon.discountValue r.cartTotal
        let newUsedCount := coupon.usedCount + 1
        let coupons' :=
          updateById st.coupons r.couponId
            (fun c => { c with usedCount := newUsedCount, updatedAt := now })
        (.ok { couponId := coupon.id, orderId := r.orderId,
               discountType := coupon.discountType, discountValue := coupon.discountValue,
               discountAmount := discountAmount,
               finalTotal := max (r.cartTotal - discountAmount) 0,
               usedCount := newUsedCount },
         { st with coupons := coupons' })

-- ── Inline handlers (first version in `handlers.ts`, lines 65-504) ──────────
-- Same shape, but eligibility and error wrapping are written inline instead
-- of going through `validateCouponEligibility` / `withErrorHandling`, and its
-- local `toCouponDocument` has no required-field check (both versions read
-- well-typed documents in this model).

def createCouponHandlerV1 (st : Store) (now : ℤ) (newId : String) (lc : LimitCheck)
    (r : CreateCouponRequest) : FnResult CouponDocument × Store :=
  if createCouponSchemaOk r = false then (.err .INVALID_INPUT, st) else
  match st.sites r.siteId with
  | none => (.err .SITE_NOT_FOUND, st)
  | some userId =>
    if lc.allowed = false then (.err .COUPON_LIMIT_REACHED, st) else
    match findCouponByCode st r.siteId (upperCode r.code) with
    | some _ => (.err .DUPLICATE_CODE, st)
    | none =>
      let couponData : CouponDocument :=
        { id := newId, siteId := r.siteId, userId := userId,
          code := upperCode r.code, discountType := r.discountType,
          discountValue := r.discountValue, minPurchase := r.minPurchase,
          maxUses := r.maxUses, usedCount := 0, validFrom := r.validFrom,
          validUntil := r.validUntil, isActive := true,
          createdAt := now, updatedAt := now }
      (.ok couponData, { st with coupons := st.coupons ++ [couponData] })

def getCouponsHandlerV1 (st : Store) (r : GetCouponsRequest) :
    FnResult (List CouponDocument) × Store :=
  if getCouponsSchemaOk r = false then (.err .INVALID_INPUT, st) else
  match st.sites r.siteId with
  | none => (.err .SITE_NOT_FOUND, st)
  | some _ => (.ok (st.coupons.filter (fun c => decide (c.siteId = r.siteId))), st)

def updateCouponHandlerV1 (st : Store) (now : ℤ) (r : UpdateCouponRequest) :
    FnResult CouponDocument × Store :=
  if updateCouponSchemaOk r = false then (.err .INVALID_INPUT, st) else
  match st.sites r.siteId with
  | none => (.err .SITE_NOT_FOUND, st)
  | some _ =>
    match findCouponById st r.couponId with
    | none => (.err .COUPON_NOT_FOUND, st)
    | some currentData =>
      if currentData.siteId ≠ r.siteId then (.err .FORBIDDEN, st) else
      if updateDupCode st r currentData = true then (.err .DUPLICATE_CODE, st) else
      if (r.discountType.getD currentData.discountType) = .percentage
          ∧ 100 < r.discountValue.getD currentData.discountValue then
        (.err .INVALID_INPUT, st)
      else if r.validUntil.getD currentData.validUntil
          ≤ r.validFrom.getD currentData.validFrom then
        (.err .INVALID_INPUT, st)
      else
        let st' : Store :=
          { st with coupons := updateById st.coupons r.couponId (fun c => mergeCoupon c r now) }
        match findCouponById st' r.couponId with
        | some updatedData => (.ok updatedData, st')
        | none => (.err .INTERNAL_ERROR, st')

def deleteCouponHandlerV1 (st : Store) (r : DeleteCouponRequest) :
    FnResult DeleteCouponResult × Store :=
  if deleteCouponSchemaOk r = false then (.err .INVALID_INPUT, st) else
  match st.sites r.siteId with
  | none => (.err .SITE_NOT_FOUND, st)
  | some _ =>
    match findCouponById st r.couponId with
    | none => (.err .COUPON_NOT_FOUND, st)
    | some couponData =>
      if couponData.siteId ≠ r.siteId then (.err .FORBIDDEN, st) else
      (.ok { id := r.couponId }, { st with coupons := deleteById st.coupons r.couponId })

/-- First-version `validateCouponHandler` with the eligibility ladder written
inline (`!coupon.isActive`, date window, uses, minimum purchase). -/
def validateCouponHandlerV1 (st : Store) (now : ℤ) (r : ValidateCouponRequest) :
    FnResult ValidateCouponResult × Store :=
  if validateCouponSchemaOk r = false then (.err .INVALID_INPUT, st) else
  match st.sites r.siteId with
  | none => (.err .SITE_NOT_FOUND, st)
  | some _ =>
    match findCouponByCode st r.siteId (upperCode r.code) with
    | none => (.err .COUPON_NOT_FOUND, st)
    | some coupon =>
      if coupon.isActive = false then (.err .COUPON_INACTIVE, st) else
      if now < coupon.validFrom then (.err .COUPON_NOT_YET_VALID, st) else
      if coupon.validUntil < now then (.err .COUPON_EXPIRED, st) else
      if maxUsesExhausted coupon = true then (.err .COUPON_MAX_USES, st) else
      if belowMinPurchase coupon r.cartTotal = true then (.err .MIN_PURCHASE_NOT_MET, st) else
      let discountAmount := calculateDiscount coupon.discountType coupon.discountValue r.cartTotal
      (.ok { valid := true, couponId := coupon.id, code := coupon.code,
             discountType := coupon.discountType, discountValue := coupon.discountValue,
             discountAmount := discountAmount,
             finalTotal := max (r.cartTotal - discountAmount) 0 }, st)

/-- First-version `applyCouponHandler` with the eligibility ladder written
inline in the transactional scope. -/
def applyCouponHandlerV1 (st : Store) (now : ℤ) (r : ApplyCouponRequest) :
    FnResult ApplyCouponResult × Store :=
  if applyCouponSchemaOk r = false then (.err .INVALID_INPUT, st) else
  match st.sites r.siteId with
  | none => (.err .SITE_NOT_FOUND, st)
  | some _ =>
    match findCouponById st r.couponId with
    | none => (.err .COUPON_NOT_FOUND, st)
    | some coupon =>
      if coupon.siteId ≠ r.siteId then (.err .FORBIDDEN, st) else
      if coupon.isActive = false then (.err .COUPON_INACTIVE, st) else
      if now < coupon.validFrom then (.err .COUPON_NOT_YET_VALID, st) else
      if coupon.validUntil < now then (.err .COUPON_EXPIRED, st) else
      if maxUsesExhausted coupon = true then (.err .COUPON_MAX_USES, st) else
      if belowMinPurchase coupon r.cartTotal = true then (.err .MIN_PURCHASE_NOT_MET, st) else
      let discountAmount := calculateDiscount coupon.discountType coupon.discountValue r.cartTotal
      let newUsedCount := coupon.usedCount + 1
      let coupons' :=
        updateById st.coupons r.couponId
          (fun c => { c with usedCount := newUsedCount, updatedAt := now })
      (.ok { couponId := coupon.id, orderId := r.orderId,
             discountType := coupon.discountType, discountValue := coupon.discountValue,
             discountAmount := discountAmount,
             finalTotal := max (r.cartTotal - discountAmount) 0,
             usedCount := newUsedCount },
       { st with coupons := coupons' })

-- ── Operation sequences over the store ──────────────────────────────────────

/-- One incoming request, with its external inputs (evaluation time, fresh
document id, plan verdict). -/
inductive CouponOp where
  | create (now : ℤ) (newId : String) (lc : LimitCheck) (r : CreateCouponRequest)
  | list (r : GetCouponsRequest)
  | update (now : ℤ) (r : UpdateCouponRequest)
  | delete (r : DeleteCouponRequest)
  | validate (now : ℤ) (r : ValidateCouponRequest)
  | apply (now : ℤ) (r : ApplyCouponRequest)

/-- Store effect of one operation (helper-based handlers). -/
def stepStore (st : Store) : CouponOp → Store
  | .create now newId lc r => (createCouponHandler st now newId lc r).2
  | .list r => (getCouponsHandler st r).2
  | .update now r => (updateCouponHandler st now r).2
  | .delete r => (deleteCouponHandler st r).2
  | .validate now r => (validateCouponHandler st now r).2
  | .apply now r => (applyCouponHandler st now r).2

def runOps : Store → List CouponOp → Store
  | st, [] => st
  | st, op :: rest => runOps (stepStore st op) rest

/-- Per-document cap invariant: `usedCount ≤ maxUses` whenever `maxUses` is set. -/
def couponMaxUsesOk (c : CouponDocument) : Bool :=
  match c.maxUses with
  | some m => c.usedCount ≤ m
  | none => true

def maxUsesInvariant (st : Store) : Prop :=
  ∀ c ∈ st.coupons, couponMaxUsesOk c = true

/-- Operations that do not write a fresh numeric `maxUses`: every operation
except an update whose request carries `maxUses: <value>`. -/
def opKeepsMaxUses : CouponOp → Prop
  | .update _ r => ∀ m, r.maxUses ≠ UpdateField.given m
  | _ => True

-- ── Concrete fixtures for witnesses ─────────────────────────────────────────

def exSites : String → Option String :=
  fun s => if s = "site1" then some "user1" else if s = "site2" then some "user2" else none

def exCoupon : CouponDocument :=
  { id := "c1", siteId := "site1", userId := "user1", code := "SAVE10",
    discountType := .percentage, discountValue := 10, minPurchase := none,
    maxUses := some 1, usedCount := 0, validFrom := 0, validUntil := 1000000,
    isActive := true, createdAt := 0, updatedAt := 0 }

def exStore : Store := { sites := exSites, coupons := [exCoupon] }

/-- A coupon at its usage cap (`maxUses = 1`, `usedCount = 1`). -/
def capCoupon : CouponDocument := { exCoupon with usedCount := 1 }

def capStore : Store := { sites := exSites, coupons := [capCoupon] }

def capApplyReq : ApplyCouponRequest :=
  { siteId := "site1", couponId := "c1", orderId := "o1", cartTotal := 100 }

/-- An unlimited coupon already used five times. -/
def cxCoupon : CouponDocument := { exCoupon with id := "c2", maxUses := none, usedCount := 5 }

def cxStore : Store := { sites := exSites, coupons := [cxCoupon] }

/-- An update that lowers `maxUses` to 1, below the stored `usedCount` of 5. -/
def cxUpdateReq : UpdateCouponRequest :=
  { siteId := "site1", couponId := "c2", code := none, discountType := none,
    discountValue := none, minPurchase := .absent, maxUses := .given 1,
    validFrom := none, validUntil := none, isActive := none }

def fixCoupon : CouponDocument :=
  { exCoupon with
    id := "c3", code := "FIX", discountType := .fixed,
    discountValue := 50000, maxUses := none }

def fixStore : Store := { sites := exSites, coupons := [fixCoupon] }

/-- A coupon stored under a different tenant (`site2`). -/
def crossCoupon : CouponDocument :=
  { exCoupon with id := "c5", siteId := "site2", userId := "user2", maxUses := none }

def crossStore : Store := { sites := exSites, coupons := [crossCoupon] }

def crossApplyReq : ApplyCouponRequest :=
  { siteId := "site1", couponId := "c5", orderId := "o5", cartTotal := 100 }

/-- A stored fixed coupon with `discountValue = 5000`. -/
def fixed5000Coupon : CouponDocument :=
  { exCoupon with
    id := "c6", code := "FIVETHOUSAND", discountType := .fixed,
    discountValue := 5000, maxUses := none }

def fixed5000Store : Store := { sites := exSites, coupons := [fixed5000Coupon] }

/-- The update request that only switches `discountType` to percentage. -/
def toPercentageReq : UpdateCouponRequest :=
  { siteId := "site1", couponId := "c6", code := none,
    discountType := some .percentage, discountValue := none,
    minPurchase := .absent, maxUses := .absent,
    validFrom := none, validUntil := none, isActive := none }

def frameCoupon : CouponDocument :=
  { exCoupon with
    id := "c7", code := "FRAME", minPurchase := some 100,
    maxUses := some 5, usedCount := 2 }

def frameStore : Store := { sites := exSites, coupons := [frameCoupon] }

/-- An update that clears `minPurchase` with an explicit null, leaves `maxUses`
absent, and changes `discountValue`. -/
def frameReq : UpdateCouponRequest :=
  { siteId := "site1", couponId := "c7", code := none, discountType := none,
    discountValue := some 20, minPurchase := .null, maxUses := .absent,
    validFrom := none, validUntil := none, isActive := none }

def frameUpdated : CouponDocument :=
  { frameCoupon with discountValue := 20, minPurchase := none, updatedAt := 42 }

def frameStore' : Store := { frameStore with coupons := [frameUpdated] }

/-- A create request whose code differs from the stored `SAVE10` only in case. -/
def dupCreateReq : CreateCouponRequest :=
  { siteId := "site1", code := "save10", discountType := .percentage,
    discountValue := 20, minPurchase := none, maxUses := none,
    validFrom := 0, validUntil := 1000 }

def okLimit : LimitCheck := { allowed := true, current := 0, limit := 10 }

-- ── Helper lemmas ───────────────────────────────────────────────────────────

theorem mem_of_updateById {l : List CouponDocument} {cid : String}
    {f : CouponDocument → CouponDocument} {c' : CouponDocument}
    (h : c' ∈ updateById l cid f) :
    c' ∈ l ∨ ∃ c0, l.find? (fun c => decide (c.id = cid)) = some c0 ∧ c' = f c0 := by
  induction l with
  | nil => simp [updateById] at h
  | cons c rest ih =>
    by_cases hc : c.id = cid
    · rw [updateById, if_pos hc] at h
      rcases List.mem_cons.mp h with h | h
      · exact Or.inr ⟨c, by simp [List.find?_cons_of_pos, hc], h⟩
      · exact Or.inl (List.mem_cons_of_mem _ h)
    · rw [updateById, if_neg hc] at h
      rcases List.mem_cons.mp h with h | h
      · exact Or.inl (h ▸ List.mem_cons_self _ _)
      · rcases ih h with h' | ⟨c0, hf, he⟩
        · exact Or.inl (List.mem_cons_of_mem _ h')
        · exact Or.inr ⟨c0, by simp [List.find?_cons_of_neg, hc, hf], he⟩

theorem find?_updateById {l : List CouponDocument} {cid : String}
    {f : CouponDocument → CouponDocument} {c0 : CouponDocument}
    (hf : ∀ c, (f c).id = c.id)
    (h : l.find? (fun c => decide (c.id = cid)) = some c0) :
    (updateById l cid f).find? (fun c => decide (c.id = cid)) = some (f c0) := by
  induction l with
  | nil => simp at h
  | cons c rest ih =>
    by_cases hc : c.id = cid
    · rw [List.find?_cons_of_pos _ (by simp [hc])] at h
      rw [updateById, if_pos hc]
      rw [List.find?_cons_of_pos _ (by simp [hf, hc])]
      simp at h
      rw [h]
    · rw [List.find?_cons_of_neg _ (by simp [hc])] at h
      rw [updateById, if_neg hc]
      rw [List.find?_cons_of_neg _ (by simp [hc])]
      exact ih h

theorem mem_of_deleteById {l : List CouponDocument} {cid : String}
    {c' : CouponDocument} (h : c' ∈ deleteById l cid) : c' ∈ l := by
  induction l with
  | nil => simp [deleteById] at h
  | cons c rest ih =>
    by_cases hc : c.id = cid
    · rw [deleteById, if_pos hc] at h
      exact List.mem_cons_of_mem _ h
    · rw [deleteById, if_neg hc] at h
      rcases List.mem_cons.mp h with h | h
      · exact h ▸ List.mem_cons_self _ _
      · exact List.mem_cons_of_mem _ (ih h)

theorem mem_updateById_of_ne {l : List CouponDocument} {cid : String}
    {f : CouponDocument → CouponDocument} {c : CouponDocument}
    (h : c ∈ l) (hne : ¬ c.id = cid) : c ∈ updateById l cid f := by
  induction l with
  | nil => simp [updateById] at h
  | cons a rest ih =>
    rcases List.mem_cons.mp h with h | h
    · subst h
      rw [updateById, if_neg hne]
      exact List.mem_cons_self _ _
    · rw [updateById]
      split
      · exact List.mem_cons_of_mem _ h
      · exact List.mem_cons_of_mem _ (ih h)

theorem eligibility_none_facts {coupon : CouponDocument} {t : ℚ} {now : ℤ}
    (h : validateCouponEligibility coupon t now = none) :
    coupon.isActive = true ∧ coupon.validFrom ≤ now ∧ now ≤ coupon.validUntil ∧
    maxUsesExhausted coupon = false ∧ belowMinPurchase coupon t = false := by
  unfold validateCouponEligibility at h
  split_ifs at h with h1 h2 h3 h4 h5
  refine ⟨by simpa using h1, by omega, by omega, by simpa using h4, by simpa using h5⟩

theorem eligibility_at_cap {coupon : CouponDocument} {t : ℚ} {now : ℤ} {m : ℕ}
    (hact : coupon.isActive = true) (hfrom : coupon.validFrom ≤ now)
    (huntil : now ≤ coupon.validUntil) (hm : coupon.maxUses = some m)
    (hcap : m ≤ coupon.usedCount) :
    validateCouponEligibility coupon t now = some .COUPON_MAX_USES := by
  unfold validateCouponEligibility
  rw [if_neg (by simp [hact]), if_neg (by omega), if_neg (by omega),
    if_pos (by simp only [maxUsesExhausted, hm]; simpa using hcap)]

/-- `getCoupons` performs no write in any branch. -/
theorem getCoupons_no_write (st : Store) (r : GetCouponsRequest) :
    (getCouponsHandler st r).2 = st := by
  unfold getCouponsHandler
  split
  · rfl
  · split <;> rfl

/-- `validateCoupon` performs no write in any branch. -/
theorem validate_no_write (st : Store) (now : ℤ) (r : ValidateCouponRequest) :
    (validateCouponHandler st now r).2 = st := by
  unfold validateCouponHandler
  split
  · rfl
  · split
    · rfl
    · split
      · rfl
      · split <;> rfl

theorem create_inv (st : Store) (now : ℤ) (newId : String) (lc : LimitCheck)
    (r : CreateCouponRequest) (h : maxUsesInvariant st) :
    maxUsesInvariant (createCouponHandler st now newId lc r).2 := by
  unfold createCouponHandler
  split
  · exact h
  split
  · exact h
  split
  · exact h
  split
  · exact h
  intro c hc
  rcases List.mem_append.mp hc with hc | hc
  · exact h c hc
  · have : c.usedCount = 0 := by
      rcases List.mem_singleton.mp hc with rfl
      rfl
    unfold couponMaxUsesOk
    split <;> simp [this]

theorem delete_inv (st : Store) (r : DeleteCouponRequest) (h : maxUsesInvariant st) :
    maxUsesInvariant (deleteCouponHandler st r).2 := by
  unfold deleteCouponHandler
  split
  · exact h
  split
  · exact h
  split
  · exact h
  split
  · exact h
  intro c hc
  exact h c (mem_of_deleteById hc)

theorem update_inv (st : Store) (now : ℤ) (r : UpdateCouponRequest)
    (hr : ∀ m, r.maxUses ≠ UpdateField.given m) (h : maxUsesInvariant st) :
    maxUsesInvariant (updateCouponHandler st now r).2 := by
  unfold updateCouponHandler
  split
  · exact h
  split
  · exact h
  split
  · exact h
  split
  · exact h
  split
  · exact h
  split
  · exact h
  split
  · exact h
  have hmain : maxUsesInvariant
      { st with coupons := updateById st.coupons r.couponId (fun c => mergeCoupon c r now) } := by
    intro c hc
    rcases mem_of_updateById hc with hc | ⟨c0, _, rfl⟩
    · exact h c hc
    · have h0 : couponMaxUsesOk c0 = true :=
        h c0 (List.mem_of_find?_eq_some (by assumption))
      unfold couponMaxUsesOk mergeCoupon at *
      rcases hm : r.maxUses with _ | _ | m
      · simpa [hm] using h0
      · simp [hm]
      · exact absurd hm (hr m)
  dsimp only
  split
  · exact hmain
  · exact hmain

theorem apply_inv (st : Store) (now : ℤ) (r : ApplyCouponRequest)
    (h : maxUsesInvariant st) : maxUsesInvariant (applyCouponHandler st now r).2 := by
  unfold applyCouponHandler
  split
  · exact h
  split
  · exact h
  split
  · exact h
  next coupon hfind =>
  split
  · exact h
  split
  · exact h
  next helig =>
  intro c hc
  rcases mem_of_updateById hc with hc | ⟨c0, hf0, rfl⟩
  · exact h c hc
  · have hc0 : c0 = coupon := by
      unfold findCouponById at hfind
      rw [hfind] at hf0
      exact (Option.some.inj hf0).symm
    subst hc0
    have hmax := (eligibility_none_facts helig).2.2.2.1
    unfold couponMaxUsesOk
    unfold maxUsesExhausted at hmax
    rcases hm : c0.maxUses with _ | m
    · simp
    · rw [hm] at hmax
      simp only [decide_eq_false_iff_not, not_le] at hmax
      simpa using Nat.succ_le_of_lt hmax

theorem stepStore_inv (st : Store) (op : CouponOp) (hop : opKeepsMaxUses op)
    (h : maxUsesInvariant st) : maxUsesInvariant (stepStore st op) := by
  cases op with
  | create now newId lc r => exact create_inv st now newId lc r h
  | list r => rw [stepStore, getCoupons_no_write]; exact h
  | update now r => exact update_inv st now r hop h
  | delete r => exact delete_inv st r h
  | validate now r => rw [stepStore, validate_no_write]; exact h
  | apply now r => exact apply_inv st now r h

theorem runOps_inv (st : Store) (ops : List CouponOp)
    (hops : ∀ op ∈ ops, opKeepsMaxUses op) (h : maxUsesInvariant st) :
    maxUsesInvariant (runOps st ops) := by
  induction ops generalizing st with
  | nil => exact h
  | cons op rest ih =>
    exact ih (stepStore st op) (fun o ho => hops o (List.mem_cons_of_mem _ ho))
      (stepStore_inv st op (hops op (List.mem_cons_self _ _)) h)

theorem apply_at_cap (st : Store) (now : ℤ) (r : ApplyCouponRequest)
    (coupon : CouponDocument) (m : ℕ) (u : String)
    (hs : applyCouponSchemaOk r = true) (hsite : st.sites r.siteId = some u)
    (hfind : findCouponById st r.couponId = some coupon) (hown : coupon.siteId = r.siteId)
    (hact : coupon.isActive = true) (hfrom : coupon.validFrom ≤ now)
    (huntil : now ≤ coupon.validUntil) (hm : coupon.maxUses = some m)
    (hcap : m ≤ coupon.usedCount) :
    applyCouponHandler st now r = (.err .COUPON_MAX_USES, st) := by
  unfold applyCouponHandler
  simp [hs, hsite, hfind, hown, eligibility_at_cap hact hfrom huntil hm hcap]

theorem apply_success (st : Store) (now : ℤ) (r : ApplyCouponRequest)
    (coupon : CouponDocument) (res : FnResult ApplyCouponResult) (st' : Store)
    (hfind : findCouponById st r.couponId = some coupon)
    (happly : applyCouponHandler st now r = (res, st'))
    (hok : ∀ e, res ≠ .err e) :
    (∀ m, coupon.maxUses = some m → coupon.usedCount < m) ∧
    findCouponById st' r.couponId =
      some { coupon with usedCount := coupon.usedCount + 1, updatedAt := now } := by
  unfold applyCouponHandler at happly
  split at happly
  · rw [Prod.ext_iff] at happly
    exact absurd happly.1.symm (hok _)
  split at happly
  · rw [Prod.ext_iff] at happly
    exact absurd happly.1.symm (hok _)
  split at happly
  · rw [Prod.ext_iff] at happly
    exact absurd happly.1.symm (hok _)
  next coupon2 hfind2 =>
  have hc2 : coupon2 = coupon := by
    rw [hfind2] at hfind
    exact Option.some.inj hfind
  subst hc2
  split at happly
  · rw [Prod.ext_iff] at happly
    exact absurd happly.1.symm (hok _)
  split at happly
  · rw [Prod.ext_iff] at happly
    exact absurd happly.1.symm (hok _)
  next helig =>
  dsimp only at happly
  rw [Prod.ext_iff] at happly
  have hst : st' = { st with
      coupons :=
        updateById st.coupons r.couponId
          (fun c => { c with usedCount := coupon2.usedCount + 1, updatedAt := now }) } :=
    happly.2.symm
  constructor
  · intro m hm
    have hmax := (eligibility_none_facts helig).2.2.2.1
    unfold maxUsesExhausted at hmax
    rw [hm] at hmax
    simpa using hmax
  · rw [hst]
    exact find?_updateById (fun c => rfl) hfind2

/-- C1 (amended): for every coupon with `maxUses` set, `apply` preserves
`usedCount ≤ maxUses`: at the cap it returns COUPON_MAX_USES without writing,
below the cap a successful apply increments `usedCount` by exactly one; apply
is the only operation that increments `usedCount`, and `usedCount` never
exceeds `maxUses` after any sequence of operations in which no update request
carries a numeric `maxUses` value (an update may lower `maxUses` below the
stored `usedCount`, which durably violates the cap; see the counterexample). -/
theorem apply_guards_usage_cap :
    (∀ (st : Store) (now : ℤ) (r : ApplyCouponRequest) (coupon : CouponDocument)
        (m : ℕ) (u : String), applyCouponSchemaOk r = true →
        st.sites r.siteId = some u → findCouponById st r.couponId = some coupon →
        coupon.siteId = r.siteId → coupon.isActive = true →
        coupon.validFrom ≤ now → now ≤ coupon.validUntil →
        coupon.maxUses = some m → m ≤ coupon.usedCount →
        applyCouponHandler st now r = (.err .COUPON_MAX_USES, st))
    ∧ (∀ (st : Store) (now : ℤ) (r : ApplyCouponRequest) (coupon : CouponDocument)
        (res : FnResult ApplyCouponResult) (st' : Store),
        findCouponById st r.couponId = some coupon →
        applyCouponHandler st now r = (res, st') → (∀ e, res ≠ .err e) →
        (∀ m, coupon.maxUses = some m → coupon.usedCount < m) ∧
        findCouponById st' r.couponId =
          some { coupon with usedCount := coupon.usedCount + 1, updatedAt := now })
    ∧ (∀ (st : Store) (ops : List CouponOp), maxUsesInvariant st →
        (∀ op ∈ ops, opKeepsMaxUses op) → maxUsesInvariant (runOps st ops)) :=
  ⟨fun st now r coupon m u hs hsite hfind hown hact hfrom huntil hm hcap =>
      apply_at_cap st now r coupon m u hs hsite hfind hown hact hfrom huntil hm hcap,
   fun st now r coupon res st' hfind happly hok =>
      apply_success st now r coupon res st' hfind happly hok,
   fun st ops h hops => runOps_inv st ops hops h⟩

/-- C1 witness: a coupon with `maxUses = 1`, `usedCount = 1`: apply fails with
COUPON_MAX_USES and the store is unchanged. -/
theorem apply_guards_usage_cap_witness :
    applyCouponHandler capStore 10 capApplyReq = (.err .COUPON_MAX_USES, capStore) :=
  apply_guards_usage_cap.1 capStore 10 capApplyReq capCoupon 1 "user1"
    (by decide) rfl rfl rfl rfl (by decide) (by decide) rfl (by decide)

/-- C1 counterexample: the claim's final clause ("usedCount never exceeds
maxUses after any sequence of operations") is false: starting from a store
satisfying the cap invariant, a single update that sets `maxUses = 1` on a
coupon with `usedCount = 5` leaves the invariant durably violated. -/
theorem apply_guards_usage_cap_cx :
    maxUsesInvariant cxStore ∧
    ¬ maxUsesInvariant (runOps cxStore [CouponOp.update 10 cxUpdateReq]) := by
  constructor
  · show ∀ c ∈ cxStore.coupons, couponMaxUsesOk c = true
    decide
  · show ¬ ∀ c ∈ (runOps cxStore [CouponOp.update 10 cxUpdateReq]).coupons,
        couponMaxUsesOk c = true
    decide

/-- C2: the eligibility check of the source equals the reference decision of
the specification, with its exact short-circuit order and outcomes;
`validUntil` is inclusive and `cartTotal = minPurchase` passes. -/
theorem eligibility_matches_spec (coupon : CouponDocument) (cartTotal : ℚ) (now : ℤ) :
    validateCouponEligibility coupon cartTotal now = checkEligibilitySpec coupon cartTotal now := by
  unfold validateCouponEligibility checkEligibilitySpec maxUsesExhausted belowMinPurchase
  cases hA : coupon.isActive <;>
    cases hM : coupon.maxUses <;>
      cases hP : coupon.minPurchase <;>
        simp [hA, hM, hP, Option.any]

/-- C9: `validateCoupon` never mutates the store: the post-state equals the
pre-state in every branch, and any number of validate calls leaves the store
(including every `usedCount`) identical. -/
theorem validate_never_mutates :
    (∀ (st : Store) (now : ℤ) (r : ValidateCouponRequest),
        (validateCouponHandler st now r).2 = st)
    ∧ (∀ (st : Store) (calls : List (ℤ × ValidateCouponRequest)),
        calls.foldl (fun s p => (validateCouponHandler s p.1 p.2).2) st = st) := by
  refine ⟨validate_no_write, fun st calls => ?_⟩
  induction calls generalizing st with
  | nil => rfl
  | cons p rest ih => rw [List.foldl_cons, validate_no_write]; exact ih st

/-- C3: the computed discount is `round(cartTotal * value / 100)` for
percentage and `min(value, cartTotal)` for fixed; percentage value 10 on
cartTotal 50000 yields discountAmount 5000 and finalTotal 45000, and fixed
value 50000 on cartTotal 10000 yields discountAmount 10000 and finalTotal 0
(the examples run through the validate pipeline). -/
theorem discount_computation :
    (∀ v t : ℚ, calculateDiscount .percentage v t = ((round (t * v / 100) : ℤ) : ℚ))
    ∧ (∀ v t : ℚ, calculateDiscount .fixed v t = min v t)
    ∧ validateCouponHandler exStore 10 { siteId := "site1", code := "SAVE10", cartTotal := 50000 }
        = (.ok { valid := true, couponId := "c1", code := "SAVE10",
                 discountType := .percentage, discountValue := 10,
                 discountAmount := 5000, finalTotal := 45000 }, exStore)
    ∧ validateCouponHandler fixStore 10 { siteId := "site1", code := "FIX", cartTotal := 10000 }
        = (.ok { valid := true, couponId := "c3", code := "FIX",
                 discountType := .fixed, discountValue := 50000,
                 discountAmount := 10000, finalTotal := 0 }, fixStore) := by
  refine ⟨fun v t => by rw [calculateDiscount, mul_div_assoc], fun v t => rfl, ?_, ?_⟩
  · have hd : calculateDiscount .percentage 10 50000 = 5000 := by
      norm_num [calculateDiscount, round_eq]
    unfold validateCouponHandler
    dsimp only
    rw [if_neg (by decide)]
    rw [show exStore.sites "site1" = some "user1" from rfl]
    dsimp only
    rw [show findCouponByCode exStore "site1" (upperCode "SAVE10") = some exCoupon from by decide]
    dsimp only
    rw [show validateCouponEligibility exCoupon 50000 10 = none from by decide]
    dsimp only
    rw [show exCoupon.discountType = DiscountType.percentage from rfl,
      show exCoupon.discountValue = 10 from rfl, hd]
    norm_num [exCoupon, max_def]
  · have hd : calculateDiscount .fixed 50000 10000 = 10000 := by
      norm_num [calculateDiscount]
    unfold validateCouponHandler
    dsimp only
    rw [if_neg (by decide)]
    rw [show fixStore.sites "site1" = some "user1" from rfl]
    dsimp only
    rw [show findCouponByCode fixStore "site1" (upperCode "FIX") = some fixCoupon from by decide]
    dsimp only
    rw [show validateCouponEligibility fixCoupon 10000 10 = none from by decide]
    dsimp only
    rw [show fixCoupon.discountType = DiscountType.fixed from rfl,
      show fixCoupon.discountValue = 50000 from rfl, hd]
    norm_num [fixCoupon, exCoupon, max_def]

/-- C4 counterexample: the claim is false for fractional cart totals, which
the schema admits (`cartTotal` only has to be non-negative): a percentage
coupon with value 100 on cartTotal 1/2 computes discountAmount 1 > 1/2, and
the zero floor in `finalTotal` is the active branch. -/
theorem discount_le_cart_cx :
    (0 : ℚ) ≤ 1/2 ∧
    ¬ (calculateDiscount .percentage 100 (1/2) ≤ (1/2 : ℚ)) ∧
    max ((1/2 : ℚ) - calculateDiscount .percentage 100 (1/2)) 0
      ≠ (1/2 : ℚ) - calculateDiscount .percentage 100 (1/2) := by
  norm_num [calculateDiscount, round_eq]

/-- C4 (amended): for every coupon satisfying the stored invariants
(`discountValue ≤ 100` when percentage, positive value) and every
non-negative integer cart total, discountAmount ≤ cartTotal for both kinds,
so `finalTotal = max(cartTotal - discountAmount, 0)` equals
`cartTotal - discountAmount` and the zero floor is never the active branch.
(On non-integer cart totals the rounding of a percentage discount can exceed
the cart by up to half a unit; see the counterexample.) -/
theorem discount_le_cart (dt : DiscountType) (v t : ℚ) (n : ℤ)
    (_hv0 : 0 ≤ v) (hv100 : dt = .percentage → v ≤ 100)
    (ht : 0 ≤ t) (hn : t = (n : ℚ)) :
    calculateDiscount dt v t ≤ t ∧
    max (t - calculateDiscount dt v t) 0 = t - calculateDiscount dt v t := by
  have hle : calculateDiscount dt v t ≤ t := by
    cases dt with
    | fixed => exact min_le_right _ _
    | percentage =>
      subst hn
      rw [calculateDiscount]
      have hdiv : v / 100 ≤ 1 := by
        rw [div_le_one (by norm_num)]
        exact hv100 rfl
      have h1 : (n : ℚ) * (v / 100) ≤ (n : ℚ) := mul_le_of_le_one_right ht hdiv
      have h2 : round ((n : ℚ) * (v / 100)) ≤ round ((n : ℚ)) := by
        rw [round_eq, round_eq]
        exact Int.floor_mono (by linarith)
      rw [round_intCast] at h2
      exact_mod_cast h2
  exact ⟨hle, max_eq_left (sub_nonneg.mpr hle)⟩

/-- C4 witness: percentage value 10, integer cartTotal 50000. -/
theorem discount_le_cart_witness :
    calculateDiscount .percentage 10 50000 ≤ (50000 : ℚ) ∧
    max ((50000 : ℚ) - calculateDiscount .percentage 10 50000) 0
      = (50000 : ℚ) - calculateDiscount .percentage 10 50000 :=
  discount_le_cart .percentage 10 50000 50000 (by norm_num)
    (fun _ => by norm_num) (by norm_num) (by norm_num)

/-- C5: an error result of `applyCoupon` leaves the store (and so every
stored coupon, in particular `usedCount`) unchanged; a cross-tenant apply
(request siteId differing from the coupon's stored siteId) returns FORBIDDEN
with no increment. -/
theorem apply_error_no_write :
    (∀ (st : Store) (now : ℤ) (r : ApplyCouponRequest) (res : FnResult ApplyCouponResult)
        (st' : Store) (e : ErrorCode),
        applyCouponHandler st now r = (res, st') → res = .err e → st' = st)
    ∧ (∀ (st : Store) (now : ℤ) (r : ApplyCouponRequest) (coupon : CouponDocument)
        (u : String), applyCouponSchemaOk r = true → st.sites r.siteId = some u →
        findCouponById st r.couponId = some coupon → coupon.siteId ≠ r.siteId →
        applyCouponHandler st now r = (.err .FORBIDDEN, st)) := by
  constructor
  · intro st now r res st' e h he
    subst he
    unfold applyCouponHandler at h
    split at h
    · rw [Prod.ext_iff] at h; exact h.2.symm
    split at h
    · rw [Prod.ext_iff] at h; exact h.2.symm
    split at h
    · rw [Prod.ext_iff] at h; exact h.2.symm
    split at h
    · rw [Prod.ext_iff] at h; exact h.2.symm
    split at h
    · rw [Prod.ext_iff] at h; exact h.2.symm
    · dsimp only at h
      rw [Prod.ext_iff] at h
      exact absurd h.1 (by simp)
  · intro st now r coupon u hs hsite hfind hown
    unfold applyCouponHandler
    simp [hs, hsite, hfind, hown]

/-- C5 witness: cross-tenant apply on a concrete store. -/
theorem apply_error_no_write_witness :
    applyCouponHandler crossStore 10 crossApplyReq = (.err .FORBIDDEN, crossStore) :=
  apply_error_no_write.2 crossStore 10 crossApplyReq crossCoupon "user1"
    (by decide) rfl rfl (by decide)

/-- C6: against the final merged values (request value if provided, else the
stored one), an update whose merged discountType is percentage with merged
discountValue over 100, or whose merged validFrom is not strictly before the
merged validUntil, is rejected with INVALID_INPUT (given it has passed the
structural schema, site, ownership and duplicate-code gates, which are
checked first) and the store is unchanged. -/
theorem update_merged_validation (st : Store) (now : ℤ) (r : UpdateCouponRequest)
    (cur : CouponDocument) (u : String)
    (hs : updateCouponSchemaOk r = true)
    (hsite : st.sites r.siteId = some u)
    (hfind : findCouponById st r.couponId = some cur)
    (hown : cur.siteId = r.siteId)
    (hdup : updateDupCode st r cur = false)
    (hviol : (r.discountType.getD cur.discountType = .percentage
        ∧ 100 < r.discountValue.getD cur.discountValue)
      ∨ r.validUntil.getD cur.validUntil ≤ r.validFrom.getD cur.validFrom) :
    updateCouponHandler st now r = (.err .INVALID_INPUT, st) := by
  unfold updateCouponHandler
  rw [if_neg (by simp [hs]), hsite]
  dsimp only
  rw [hfind]
  dsimp only
  rw [if_neg (by simp [hown]), if_neg (by simp [hdup])]
  by_cases hp : r.discountType.getD cur.discountType = .percentage
      ∧ 100 < r.discountValue.getD cur.discountValue
  · rw [if_pos hp]
  · rw [if_neg hp, if_pos (hviol.resolve_left hp)]

/-- C6 witness: the spec's example, an update of only
discountType = percentage against a stored fixed coupon with
discountValue 5000. -/
theorem update_merged_validation_witness :
    updateCouponHandler fixed5000Store 10 toPercentageReq
      = (.err .INVALID_INPUT, fixed5000Store) :=
  update_merged_validation fixed5000Store 10 toPercentageReq fixed5000Coupon "user1"
    (by decide) rfl rfl rfl (by decide) (Or.inl (by decide))

/-- C7: on a successful update, fields absent from the request keep the
stored value, `minPurchase`/`maxUses` explicitly set to null are cleared
(never collapsed with absence), provided values overwrite (code uppercased),
`usedCount`, identifiers and `createdAt` are untouched, `updatedAt` is
refreshed, and every other stored coupon is unchanged. -/
theorem update_merge_frame (st : Store) (now : ℤ) (r : UpdateCouponRequest)
    (cur c' : CouponDocument) (st' : Store)
    (hfind : findCouponById st r.couponId = some cur)
    (h : updateCouponHandler st now r = (.ok c', st')) :
    c'.id = cur.id ∧ c'.siteId = cur.siteId ∧ c'.userId = cur.userId ∧
    c'.usedCount = cur.usedCount ∧ c'.createdAt = cur.createdAt ∧
    c'.updatedAt = now ∧
    (match r.code with
     | none => c'.code = cur.code
     | some s => c'.code = upperCode s) ∧
    (match r.discountType with
     | none => c'.discountType = cur.discountType
     | some d => c'.discountType = d) ∧
    (match r.discountValue with
     | none => c'.discountValue = cur.discountValue
     | some v => c'.discountValue = v) ∧
    (match r.minPurchase with
     | .absent => c'.minPurchase = cur.minPurchase
     | .null => c'.minPurchase = none
     | .given v => c'.minPurchase = some v) ∧
    (match r.maxUses with
     | .absent => c'.maxUses = cur.maxUses
     | .null => c'.maxUses = none
     | .given m => c'.maxUses = some m) ∧
    (match r.validFrom with
     | none => c'.validFrom = cur.validFrom
     | some d => c'.validFrom = d) ∧
    (match r.validUntil with
     | none => c'.validUntil = cur.validUntil
     | some d => c'.validUntil = d) ∧
    (match r.isActive with
     | none => c'.isActive = cur.isActive
     | some b => c'.isActive = b) ∧
    st'.sites = st.sites ∧
    (∀ c ∈ st.coupons, c.id ≠ r.couponId → c ∈ st'.coupons) := by
  unfold updateCouponHandler at h
  split at h
  · rw [Prod.ext_iff] at h; exact absurd h.1 (by simp)
  split at h
  · rw [Prod.ext_iff] at h; exact absurd h.1 (by simp)
  split at h
  · rw [Prod.ext_iff] at h; exact absurd h.1 (by simp)
  next cur2 hfind2 =>
  have hc2 : cur2 = cur := by
    rw [hfind2] at hfind
    exact Option.some.inj hfind
  subst hc2
  split at h
  · rw [Prod.ext_iff] at h; exact absurd h.1 (by simp)
  split at h
  · rw [Prod.ext_iff] at h; exact absurd h.1 (by simp)
  split at h
  · rw [Prod.ext_iff] at h; exact absurd h.1 (by simp)
  split at h
  · rw [Prod.ext_iff] at h; exact absurd h.1 (by simp)
  dsimp only at h
  unfold findCouponById at h hfind2
  dsimp only at h
  rw [@find?_updateById st.coupons r.couponId (fun c => mergeCoupon c r now) cur2
    (fun c => rfl) hfind2] at h
  dsimp only at h
  rw [Prod.ext_iff] at h
  have hc' : mergeCoupon cur2 r now = c' := by
    have h1 := h.1
    injection h1
  have hst : st' = { st with
      coupons := updateById st.coupons r.couponId (fun c => mergeCoupon c r now) } :=
    h.2.symm
  subst hst
  rw [← hc']
  refine ⟨rfl, rfl, rfl, rfl, rfl, rfl, ?_, ?_, ?_, ?_, ?_, ?_, ?_, ?_, rfl, ?_⟩
  · rcases r with ⟨_, _, cd, _, _, _, _, _, _, _⟩
    cases cd <;> rfl
  · rcases r with ⟨_, _, _, dt, _, _, _, _, _, _⟩
    cases dt <;> rfl
  · rcases r with ⟨_, _, _, _, dv, _, _, _, _, _⟩
    cases dv <;> rfl
  · rcases r with ⟨_, _, _, _, _, mp, _, _, _, _⟩
    cases mp <;> rfl
  · rcases r with ⟨_, _, _, _, _, _, mu, _, _, _⟩
    cases mu <;> rfl
  · rcases r with ⟨_, _, _, _, _, _, _, vf, _, _⟩
    cases vf <;> rfl
  · rcases r with ⟨_, _, _, _, _, _, _, _, vu, _⟩
    cases vu <;> rfl
  · rcases r with ⟨_, _, _, _, _, _, _, _, _, ia⟩
    cases ia <;> rfl
  · intro c hc hne
    exact mem_updateById_of_ne hc hne

/-- C7 witness: clearing `minPurchase` with null while leaving `maxUses`
absent on a concrete store. -/
theorem update_merge_frame_witness :
    frameUpdated.id = frameCoupon.id ∧ frameUpdated.siteId = frameCoupon.siteId ∧
    frameUpdated.userId = frameCoupon.userId ∧
    frameUpdated.usedCount = frameCoupon.usedCount ∧
    frameUpdated.createdAt = frameCoupon.createdAt ∧
    frameUpdated.updatedAt = 42 ∧
    (match frameReq.code with
     | none => frameUpdated.code = frameCoupon.code
     | some s => frameUpdated.code = upperCode s) ∧
    (match frameReq.discountType with
     | none => frameUpdated.discountType = frameCoupon.discountType
     | some d => frameUpdated.discountType = d) ∧
    (match frameReq.discountValue with
     | none => frameUpdated.discountValue = frameCoupon.discountValue
     | some v => frameUpdated.discountValue = v) ∧
    (match frameReq.minPurchase with
     | .absent => frameUpdated.minPurchase = frameCoupon.minPurchase
     | .null => frameUpdated.minPurchase = none
     | .given v => frameUpdated.minPurchase = some v) ∧
    (match frameReq.maxUses with
     | .absent => frameUpdated.maxUses = frameCoupon.maxUses
     | .null => frameUpdated.maxUses = none
     | .given m => frameUpdated.maxUses = some m) ∧
    (match frameReq.validFrom with
     | none => frameUpdated.validFrom = frameCoupon.validFrom
     | some d => frameUpdated.validFrom = d) ∧
    (match frameReq.validUntil with
     | none => frameUpdated.validUntil = frameCoupon.validUntil
     | some d => frameUpdated.validUntil = d) ∧
    (match frameReq.isActive with
     | none => frameUpdated.isActive = frameCoupon.isActive
     | some b => frameUpdated.isActive = b) ∧
    frameStore'.sites = frameStore.sites ∧
    (∀ c ∈ frameStore.coupons, c.id ≠ frameReq.couponId → c ∈ frameStore'.coupons) :=
  update_merge_frame frameStore 42 frameReq frameCoupon frameUpdated frameStore' rfl rfl

/-- C8: given create reaches the uniqueness gate (schema passed, site found,
plan limit allowed), it fails with DUPLICATE_CODE exactly when a coupon with
the same uppercase-normalized code already exists on the same site (codes
differing only in case collide, and the same code on another site is no
conflict); update fails with DUPLICATE_CODE only when a code is supplied
whose normalization differs from the coupon's current code and matches a
different coupon of the same site. -/
theorem duplicate_code_per_site :
    (∀ (st : Store) (now : ℤ) (newId : String) (lc : LimitCheck)
        (r : CreateCouponRequest) (u : String),
        createCouponSchemaOk r = true → st.sites r.siteId = some u →
        lc.allowed = true →
        ((createCouponHandler st now newId lc r).1 = .err .DUPLICATE_CODE ↔
          ∃ c ∈ st.coupons, c.siteId = r.siteId ∧ c.code = upperCode r.code))
    ∧ (∀ (st : Store) (now : ℤ) (r : UpdateCouponRequest)
        (res : FnResult CouponDocument) (st' : Store),
        updateCouponHandler st now r = (res, st') → res = .err .DUPLICATE_CODE →
        ∃ cur s, findCouponById st r.couponId = some cur ∧ r.code = some s ∧
          upperCode s ≠ cur.code ∧
          ∃ c ∈ st.coupons, c.siteId = r.siteId ∧ c.code = upperCode s ∧ c ≠ cur) := by
  constructor
  · intro st now newId lc r u hs hsite hallow
    unfold createCouponHandler
    rw [if_neg (by simp [hs]), hsite]
    dsimp only
    rw [if_neg (by simp [hallow])]
    cases hdup : findCouponByCode st r.siteId (upperCode r.code) with
    | some c0 =>
      dsimp only
      unfold findCouponByCode at hdup
      have hmem := List.mem_of_find?_eq_some hdup
      have hpred := List.find?_some hdup
      simp only [Bool.and_eq_true, decide_eq_true_eq] at hpred
      exact iff_of_true rfl ⟨c0, hmem, hpred.1, hpred.2⟩
    | none =>
      dsimp only
      unfold findCouponByCode at hdup
      rw [List.find?_eq_none] at hdup
      constructor
      · intro hcontra
        exact absurd hcontra (by simp)
      · rintro ⟨c, hc, h1, h2⟩
        exact absurd (by simp [h1, h2] : (fun c =>
          decide (c.siteId = r.siteId) && decide (c.code = upperCode r.code)) c = true)
          (by simpa using hdup c hc)
  · intro st now r res st' h hres
    subst hres
    unfold updateCouponHandler at h
    split at h
    · rw [Prod.ext_iff] at h; exact absurd h.1 (by simp)
    split at h
    · rw [Prod.ext_iff] at h; exact absurd h.1 (by simp)
    split at h
    · rw [Prod.ext_iff] at h; exact absurd h.1 (by simp)
    next cur hfindcur =>
    split at h
    · rw [Prod.ext_iff] at h; exact absurd h.1 (by simp)
    split at h
    case isTrue hdupc =>
      unfold updateDupCode at hdupc
      cases hcode : r.code with
      | none => rw [hcode] at hdupc; simp at hdupc
      | some s =>
        rw [hcode] at hdupc
        simp only [Bool.and_eq_true, decide_eq_true_eq, Option.isSome_iff_exists] at hdupc
        obtain ⟨hne, c0, hfound⟩ := hdupc
        unfold findCouponByCode at hfound
        have hmem := List.mem_of_find?_eq_some hfound
        have hpred := List.find?_some hfound
        simp only [Bool.and_eq_true, decide_eq_true_eq] at hpred
        refine ⟨cur, s, hfindcur, rfl, hne, c0, hmem, hpred.1, hpred.2, ?_⟩
        intro hceq
        rw [hceq] at hpred
        exact hne hpred.2.symm
    split at h
    · rw [Prod.ext_iff] at h; exact absurd h.1 (by simp)
    split at h
    · rw [Prod.ext_iff] at h; exact absurd h.1 (by simp)
    · dsimp only at h
      split at h <;> (rw [Prod.ext_iff] at h; exact absurd h.1 (by simp))

/-- C8 witness: the create conjunct at a store holding `SAVE10` on `site1`
and a create request for `save10` on `site1`. -/
theorem duplicate_code_per_site_witness :
    (createCouponHandler exStore 5 "new1" okLimit dupCreateReq).1 = .err .DUPLICATE_CODE ↔
      ∃ c ∈ exStore.coupons, c.siteId = dupCreateReq.siteId
        ∧ c.code = upperCode dupCreateReq.code :=
  duplicate_code_per_site.1 exStore 5 "new1" okLimit dupCreateReq "user1"
    (by decide) rfl rfl

/-- Generic bridge between the inline eligibility ladder of the first handler
version and the `validateCouponEligibility` match of the second. -/
theorem elig_chain {α : Type} (coupon : CouponDocument) (t : ℚ) (now : ℤ)
    (st : Store) (X : FnResult α × Store) :
    (if coupon.isActive = false then ((FnResult.err .COUPON_INACTIVE : FnResult α), st)
     else if now < coupon.validFrom then (.err .COUPON_NOT_YET_VALID, st)
     else if coupon.validUntil < now then (.err .COUPON_EXPIRED, st)
     else if maxUsesExhausted coupon = true then (.err .COUPON_MAX_USES, st)
     else if belowMinPurchase coupon t = true then (.err .MIN_PURCHASE_NOT_MET, st)
     else X) =
    (match validateCouponEligibility coupon t now with
     | some e => (.err e, st)
     | none => X) := by
  unfold validateCouponEligibility
  split_ifs <;> rfl

/-- C10: the two handler versions in the source (inline logic, lines 65-504,
and helper-based, lines 539-908) are behaviorally equivalent: each of the six
operations returns the same result envelope and performs the same store
effects on every request and store state. -/
theorem handlers_equivalent :
    (∀ st now newId lc r, createCouponHandlerV1 st now newId lc r
        = createCouponHandler st now newId lc r)
    ∧ (∀ st r, getCouponsHandlerV1 st r = getCouponsHandler st r)
    ∧ (∀ st now r, updateCouponHandlerV1 st now r = updateCouponHandler st now r)
    ∧ (∀ st r, deleteCouponHandlerV1 st r = deleteCouponHandler st r)
    ∧ (∀ st now r, validateCouponHandlerV1 st now r = validateCouponHandler st now r)
    ∧ (∀ st now r, applyCouponHandlerV1 st now r = applyCouponHandler st now r) := by
  refine ⟨fun _ _ _ _ _ => rfl, fun _ _ => rfl, fun _ _ _ => rfl, fun _ _ => rfl, ?_, ?_⟩
  · intro st now r
    unfold validateCouponHandlerV1 validateCouponHandler
    split
    · rfl
    split
    · rfl
    split
    · rfl
    exact elig_chain _ _ _ _ _
  · intro st now r
    unfold applyCouponHandlerV1 applyCouponHandler
    split
    · rfl
    split
    · rfl
    split
    · rfl
    split
    · rfl
    exact elig_chain _ _ _ _ _
